import Mathlib

/-!
Shallow embedding of `src/transport/grpc/server.go` (package `grpc` of the
kratos transport layer): the option-based configuration builder, the two
unary interceptors (context enrichment + middleware dispatch, and timeout
enforcement), the interceptor chain installed by `NewServer`, and the
`Start` / `Stop` / `Endpoint` lifecycle methods.

Modelling conventions:
- Go `context.Context` is modelled as an explicit record carrying the parts
  the code manipulates: an optional absolute deadline (instants and
  durations are `Int` nanoseconds, as in Go's `time.Duration`), the
  transport-kind tag and the per-call `ServerInfo`.
- Go `interface{}` request/response values are modelled by the inductive
  `Val`; a handler outcome is a normal response, an error value, or a
  runtime fault (Go panic), reified as `Outcome`.
- External collaborators (`net.Listen`, the `host.Extract` resolver) are
  passed as explicit function parameters; Go standard-library semantics
  (`context.WithTimeout`) and the gRPC library's interceptor chaining
  (`grpc.ChainUnaryInterceptor`) are modelled from their documented
  behaviour.  Repository code outside `src/` (`middleware.Chain`,
  `status.Server`, `recovery.Recovery`, `transport.NewContext`, the grpc
  package's own `NewContext`) is modelled from the spec, as marked on each
  definition.
-/

namespace KratosGrpc

/-- TransportTag carried in the execution context (`transport.Transport`):
a constant marker identifying the transport kind handling the call. -/
structure Transport where
  kind : String
deriving DecidableEq

/-- Per-call metadata (`ServerInfo` in the grpc package, CallInfo in the
spec): the target serving object (an opaque handle) and the full method
name, taken from `grpc.UnaryServerInfo`. -/
structure ServerInfo where
  server : Nat
  fullMethod : String
deriving DecidableEq

/-- Execution context: the fields of Go's `context.Context` that the code
under `src/` reads or writes — an optional absolute deadline (Int
nanoseconds), the transport-kind tag, and the per-call `ServerInfo`. -/
structure Context where
  deadline : Option Int
  transport : Option Transport
  serverInfo : Option ServerInfo
deriving DecidableEq

/-- Error values flowing out of a handler: a raw application error, or an
error already in the transport's native status form. -/
inductive Err where
  | app (msg : String)
  | status (code : Nat) (msg : String)
deriving DecidableEq

/-- Opaque request/response values (Go `interface{}`).  The `ctx`
constructor lets an instrumented handler report the context it observed. -/
inductive Val where
  | unit
  | nat (n : Nat)
  | str (s : String)
  | ctx (c : Context)
deriving DecidableEq

/-- Result of one handler invocation: a response, an error, or a runtime
fault (Go panic) raised within the handler's dynamic extent. -/
inductive Outcome where
  | ok (resp : Val)
  | err (e : Err)
  | fault (msg : String)
deriving DecidableEq

/-- A handler maps (context, request) to an outcome
(`middleware.Handler` / `grpc.UnaryHandler`). -/
def Handler : Type := Context → Val → Outcome

/-- A middleware transforms a handler into a handler
(`middleware.Middleware`). -/
def Middleware : Type := Handler → Handler

/-- Modelled from the spec: `middleware.Chain` (repository code outside
`src/`) composes an ordered sequence of middleware into one middleware,
with the earlier-declared middleware outermost (it observes the call first
and the result last). -/
def Chain (ms : List Middleware) : Middleware :=
  fun h => ms.foldr (fun m acc => m acc) h

/-- Modelled from the spec: `status.Server()` (repository code outside
`src/`) maps internal/application error values into the transport's native
error-status representation before they leave the chain; errors already in
native status form, normal responses and faults pass through unchanged. -/
def statusServer : Middleware := fun h ctx req =>
  match h ctx req with
  | .err (.app msg) => .err (.status 2 msg)
  | o => o

/-- Modelled from the spec: `recovery.Recovery()` (repository code outside
`src/`) catches any runtime fault raised within the wrapped handler's
dynamic extent and converts it into a well-formed error result; it never
propagates the fault. -/
def recoveryRecovery : Middleware := fun h ctx req =>
  match h ctx req with
  | .fault msg => .err (.status 13 msg)
  | o => o

/-- Opaque native gRPC server option (`grpc.ServerOption`), carried but
never inspected by the code under `src/`. -/
structure GrpcOption where
  id : Nat
deriving DecidableEq

/-- A bound listening socket (`net.Listener`); `addrString` is
`lis.Addr().String()`. -/
structure Listener where
  addrString : String
deriving DecidableEq

/-- The `Server` struct of `server.go`: listener reference plus the
configuration fields populated by defaults and options.  The embedded
`*grpc.Server` is an external collaborator; the dispatch pipeline it is
configured with is modelled by `serverRootInterceptor` below. -/
structure Server where
  lis : Option Listener
  network : String
  address : String
  timeout : Int
  middleware : Option Middleware
  grpcOpts : List GrpcOption

/-- The construction surface of `server.go`: one constructor per named
option (`Network`, `Address`, `Timeout`, `Middleware`, `Options`), each
carrying the value its Go closure would capture.  A Go nil middleware is
`middleware none`. -/
inductive ServerOption where
  | network (n : String)
  | address (a : String)
  | timeout (t : Int)
  | middleware (m : Option Middleware)
  | options (o : List GrpcOption)

/-- Applying one option mutates exactly the field its closure assigns
(lines 26-58 of `server.go`). -/
def applyOption (s : Server) : ServerOption → Server
  | .network n => { s with network := n }
  | .address a => { s with address := a }
  | .timeout t => { s with timeout := t }
  | .middleware m => { s with middleware := m }
  | .options o => { s with grpcOpts := o }

/-- Go's `time.Second` in nanoseconds. -/
def timeSecond : Int := 1000000000

/-- `NewServer` (lines 72-96): a config pre-populated with the defaults
(network "tcp", address ":0", timeout one second, middleware the default
chain of status translation then panic recovery), then every supplied
option applied in order. -/
def NewServer (opts : List ServerOption) : Server :=
  let srv : Server :=
    { lis := none
      network := "tcp"
      address := ":0"
      timeout := timeSecond
      middleware := some (Chain [statusServer, recoveryRecovery])
      grpcOpts := [] }
  opts.foldl applyOption srv

/-- Modelled from the spec: `transport.NewContext` (repository code outside
`src/`) returns the context augmented with the transport-kind tag. -/
def transportNewContext (ctx : Context) (t : Transport) : Context :=
  { ctx with transport := some t }

/-- Modelled from the spec: the grpc package's own `NewContext` (repository
code outside `src/`) returns the context augmented with the per-call
`ServerInfo`. -/
def grpcNewContext (ctx : Context) (si : ServerInfo) : Context :=
  { ctx with serverInfo := some si }

/-- Go `context.WithTimeout(ctx, t)` evaluated at instant `now`, per its
documented semantics: the derived context carries deadline `now + t`,
unless the parent already carries a sooner deadline, which is kept. -/
def contextWithTimeout (now t : Int) (ctx : Context) : Context :=
  match ctx.deadline with
  | some cur => if cur < now + t then ctx else { ctx with deadline := some (now + t) }
  | none => { ctx with deadline := some (now + t) }

/-- Deadline intersection: the sooner of an optional incoming deadline and
a freshly derived one. -/
def deadlineIntersect (incoming : Option Int) (d : Int) : Int :=
  match incoming with
  | some cur => min cur d
  | none => d

/-- A unary server interceptor (`grpc.UnaryServerInterceptor`): context,
request, call info, and the next handler in. -/
def Interceptor : Type := Context → Val → ServerInfo → Handler → Outcome

/-- `UnaryTimeoutInterceptor` (lines 128-134): derive a deadline-bound
context from the incoming one via `context.WithTimeout` and invoke the
next handler with it.  `now` is the instant the interceptor executes. -/
def UnaryTimeoutInterceptor (timeout now : Int) : Interceptor :=
  fun ctx req _info handler => handler (contextWithTimeout now timeout ctx) req

/-- The body of the closure returned by `UnaryTimeoutInterceptor` with the
`defer cancel()` made explicit: the second component records that the
cancel function ran, which a Go `defer` guarantees on every exit path of
the call — normal return, error return, and panic (here all three are
values of `Outcome`, so the deferred call runs unconditionally after the
handler's outcome is produced). -/
def timeoutInterceptorRun (timeout now : Int) (handler : Handler) (ctx : Context) (req : Val) :
    Outcome × Bool :=
  (handler (contextWithTimeout now timeout ctx) req, true)

/-- The `if m != nil` guard of `UnaryServerInterceptor`: wrap the handler
with the middleware when one is present, otherwise leave it untouched. -/
def applyMiddleware (m : Option Middleware) (h : Handler) : Handler :=
  match m with
  | some mw => mw h
  | none => h

/-- `UnaryServerInterceptor` (lines 137-149): stamp the context with the
transport kind "GRPC" and the call's `ServerInfo`, wrap the terminal
handler with the middleware when non-nil, and run the result under the
enriched context. -/
def UnaryServerInterceptor (m : Option Middleware) : Interceptor :=
  fun ctx req info handler =>
    let ctx1 := transportNewContext ctx { kind := "GRPC" }
    let ctx2 := grpcNewContext ctx1 { server := info.server, fullMethod := info.fullMethod }
    let h : Handler := fun c r => handler c r
    applyMiddleware m h ctx2 req

/-- The context enrichment performed by `UnaryServerInterceptor` before the
middleware chain runs, as one function. -/
def enrichContext (ctx : Context) (info : ServerInfo) : Context :=
  grpcNewContext (transportNewContext ctx { kind := "GRPC" })
    { server := info.server, fullMethod := info.fullMethod }

/-- Modelled from the gRPC library's documented chaining semantics:
`grpc.ChainUnaryInterceptor(i1, i2)` makes `i1` the outermost interceptor —
the handler `i1` receives invokes `i2`, whose handler is the final one. -/
def chainUnaryInterceptor2 (i1 i2 : Interceptor) : Interceptor :=
  fun ctx req info handler =>
    i1 ctx req info (fun c r => i2 c r info handler)

/-- The dispatch pipeline `NewServer` installs on the native server (lines
85-94): the chain of `UnaryServerInterceptor(srv.middleware)` followed by
`UnaryTimeoutInterceptor(srv.timeout)`, with the former outermost. -/
def serverRootInterceptor (s : Server) (now : Int) : Interceptor :=
  chainUnaryInterceptor2 (UnaryServerInterceptor s.middleware)
    (UnaryTimeoutInterceptor s.timeout now)

/-- Failure value of the external `host.Extract` resolver. -/
structure HostError where
  msg : String
deriving DecidableEq

/-- `Endpoint` (lines 101-107): resolve the advertisable address through
the external `host.Extract` collaborator (passed as `extract`, given the
configured address and the stored listener); on failure return the empty
string and the error, on success prefix the resolved address with the
fixed scheme `grpc://` and return a nil error. -/
def Endpoint (extract : String → Option Listener → Except HostError String) (s : Server) :
    String × Option HostError :=
  match extract s.address s.lis with
  | .error e => ("", some e)
  | .ok addr => ("grpc://" ++ addr, none)

/-- Failure value of the external `net.Listen` collaborator. -/
structure BindError where
  msg : String
deriving DecidableEq

/-- Observable effects of one `Start` call: the server state afterwards,
the error returned early (none when the bind succeeded), the log lines
emitted, and whether the blocking accept/dispatch loop (`s.Serve`) was
entered. -/
structure StartOutcome where
  server : Server
  returned : Option BindError
  logs : List String
  enteredServeLoop : Bool

/-- `Start` (lines 110-118): bind via the external `net.Listen` (passed as
`netListen`) on the configured network and address; on failure return the
error at once, leaving the server untouched; on success store the
listener, log the bound address and enter the blocking serve loop. -/
def Start (netListen : String → String → Except BindError Listener) (s : Server) :
    StartOutcome :=
  match netListen s.network s.address with
  | .error e =>
      { server := s, returned := some e, logs := [], enteredServeLoop := false }
  | .ok lis =>
      { server := { s with lis := some lis }
        returned := none
        logs := ["[gRPC] server listening on: " ++ lis.addrString]
        enteredServeLoop := true }

/-- Observable effects of one `Stop` call: whether the native server's
graceful, in-flight-draining shutdown (`GracefulStop`, an external
collaborator that blocks until drained) was invoked, the log lines, and
the returned error. -/
structure StopOutcome where
  gracefulStopCalled : Bool
  logs : List String
  returned : Option String

/-- `Stop` (lines 121-125): call `GracefulStop`, log, return nil. -/
def Stop (_s : Server) : StopOutcome :=
  { gracefulStopCalled := true
    logs := ["[gRPC] server stopping"]
    returned := none }

/-- The value an option sets for the network field, when it touches it. -/
def networkSet : ServerOption → Option String
  | .network n => some n
  | _ => none

/-- The value an option sets for the address field, when it touches it. -/
def addressSet : ServerOption → Option String
  | .address a => some a
  | _ => none

/-- The value an option sets for the timeout field, when it touches it. -/
def timeoutSet : ServerOption → Option Int
  | .timeout t => some t
  | _ => none

/-- The value an option sets for the middleware field, when it touches it. -/
def middlewareSet : ServerOption → Option (Option Middleware)
  | .middleware m => some m
  | _ => none

/-- The value an option sets for the native-options field, when it touches
it. -/
def optionsSet : ServerOption → Option (List GrpcOption)
  | .options o => some o
  | _ => none

/-- The value set by the last option in the sequence that touches a field,
or the default when none does. -/
def lastWith {α : Type} (f : ServerOption → Option α) (opts : List ServerOption) (d : α) : α :=
  opts.foldl (fun acc o => (f o).getD acc) d

/-! Helper lemmas shared by several claims. -/

/-- The deadline of the context derived by `contextWithTimeout` is the
intersection (minimum) of the incoming deadline and `now + t`. -/
theorem contextWithTimeout_deadline (now t : Int) (ctx : Context) :
    (contextWithTimeout now t ctx).deadline = some (deadlineIntersect ctx.deadline (now + t)) := by
  cases h : ctx.deadline with
  | none => simp [contextWithTimeout, deadlineIntersect, h]
  | some cur =>
      by_cases hlt : cur < now + t
      · simp [contextWithTimeout, deadlineIntersect, h, hlt, min_eq_left (le_of_lt hlt)]
      · simp [contextWithTimeout, deadlineIntersect, h, hlt, min_eq_right (le_of_not_lt hlt)]

/-- Deriving a deadline leaves the transport tag untouched. -/
theorem contextWithTimeout_transport (now t : Int) (ctx : Context) :
    (contextWithTimeout now t ctx).transport = ctx.transport := by
  cases h : ctx.deadline <;> simp [contextWithTimeout, h]
  split <;> rfl

/-- Deriving a deadline leaves the per-call `ServerInfo` untouched. -/
theorem contextWithTimeout_serverInfo (now t : Int) (ctx : Context) :
    (contextWithTimeout now t ctx).serverInfo = ctx.serverInfo := by
  cases h : ctx.deadline <;> simp [contextWithTimeout, h]
  split <;> rfl

/-- Folding the options over any starting server sets each configuration
field to the value of the last option touching it, starting from the
field's value in the starting server. -/
theorem foldl_applyOption_fields (opts : List ServerOption) (s : Server) :
    (opts.foldl applyOption s).network = lastWith networkSet opts s.network
    ∧ (opts.foldl applyOption s).address = lastWith addressSet opts s.address
    ∧ (opts.foldl applyOption s).timeout = lastWith timeoutSet opts s.timeout
    ∧ (opts.foldl applyOption s).middleware = lastWith middlewareSet opts s.middleware
    ∧ (opts.foldl applyOption s).grpcOpts = lastWith optionsSet opts s.grpcOpts := by
  induction opts generalizing s with
  | nil => exact ⟨rfl, rfl, rfl, rfl, rfl⟩
  | cons o rest ih =>
      cases o <;>
        simpa [List.foldl_cons, lastWith, applyOption,
          networkSet, addressSet, timeoutSet, middlewareSet, optionsSet] using ih _

/-- Each field of a constructed server is the value of the last option
touching it, or its default. -/
theorem newServer_fields (opts : List ServerOption) :
    (NewServer opts).network = lastWith networkSet opts "tcp"
    ∧ (NewServer opts).address = lastWith addressSet opts ":0"
    ∧ (NewServer opts).timeout = lastWith timeoutSet opts timeSecond
    ∧ (NewServer opts).middleware
        = lastWith middlewareSet opts (some (Chain [statusServer, recoveryRecovery]))
    ∧ (NewServer opts).grpcOpts = lastWith optionsSet opts [] :=
  foldl_applyOption_fields opts
    { lis := none
      network := "tcp"
      address := ":0"
      timeout := timeSecond
      middleware := some (Chain [statusServer, recoveryRecovery])
      grpcOpts := [] }

/-- A property holding of the default and of every value the options set
for a field holds of the final value of that field. -/
theorem lastWith_preserves {α : Type} (P : α → Prop) (f : ServerOption → Option α)
    (opts : List ServerOption) (d : α) (hd : P d)
    (hf : ∀ o ∈ opts, ∀ x, f o = some x → P x) :
    P (lastWith f opts d) := by
  induction opts generalizing d with
  | nil => exact hd
  | cons o rest ih =>
      show P (lastWith f rest ((f o).getD d))
      apply ih
      · cases hfo : f o with
        | none => exact hd
        | some x => exact hf o (List.mem_cons_self o rest) x hfo
      · exact fun o2 h2 x hx => hf o2 (List.mem_cons_of_mem o h2) x hx

/-! Claim C1: pipeline order. -/

/-- A middleware that short-circuits and reports the context it observes,
used to instrument the dispatch pipeline. -/
def probeMw : Middleware := fun _h => fun c _r => .ok (.ctx c)

/-- An incoming context with no deadline and no tags. -/
def ctxIn : Context := { deadline := none, transport := none, serverInfo := none }

/-- Concrete call metadata. -/
def infoIn : ServerInfo := { server := 7, fullMethod := "/helloworld.Greeter/SayHello" }

/-- A terminal handler. -/
def termHandler : Handler := fun _c _r => .ok .unit

/-- The context the probing middleware observes on a server built by
`NewServer`: enriched, but with no deadline. -/
def observedCtx : Context :=
  { deadline := none, transport := some { kind := "GRPC" }, serverInfo := some infoIn }

/-- C1 (counterexample): on the pipeline `NewServer` installs, a middleware
does NOT observe a timeout-bound context.  With the default one-second
timeout, an incoming context carrying no deadline, and the call starting at
instant 0, the instrumented middleware observes a context whose deadline is
still `none` — not bounded by the configured timeout — because
`UnaryServerInterceptor` (which runs the middleware chain) is chained
OUTSIDE `UnaryTimeoutInterceptor`, so the middleware chain executes before
the timeout enforcer bounds the context. -/
theorem middleware_observes_unbounded_deadline :
    serverRootInterceptor (NewServer [.middleware (some probeMw)]) 0 ctxIn .unit infoIn
        termHandler = .ok (.ctx observedCtx)
    ∧ observedCtx.deadline = none := ⟨rfl, rfl⟩

/-- C1 (amended): for every inbound call the handlers run in the order the
code fixes: the enricher stamps the context first, the middleware chain
then executes under the enriched — but not yet deadline-bound — context,
and the timeout enforcer bounds the context only inside the middleware
chain, immediately around the terminal handler, so it is the terminal
handler (not the middleware) that runs under the enriched, timeout-bound
context, with deadline the intersection of the incoming deadline and
`now + timeout`. -/
theorem pipeline_enrich_then_middleware_then_timeout (s : Server) (now : Int)
    (ctx : Context) (req : Val) (info : ServerInfo) (handler : Handler) :
    serverRootInterceptor s now ctx req info handler
      = applyMiddleware s.middleware
          (fun c r => handler (contextWithTimeout now s.timeout c) r)
          (enrichContext ctx info) req
    ∧ (enrichContext ctx info).deadline = ctx.deadline
    ∧ (contextWithTimeout now s.timeout (enrichContext ctx info)).deadline
        = some (deadlineIntersect ctx.deadline (now + s.timeout)) := by
  refine ⟨?_, rfl, contextWithTimeout_deadline now s.timeout (enrichContext ctx info)⟩
  rcases s with ⟨lis, n, a, t, m, g⟩
  cases m <;> rfl

/-! Claim C2: defaults of NewServer. -/

/-- C2: `NewServer` with an empty option list yields exactly the documented
defaults: no listener, network "tcp", address ":0", timeout one second
(10^9 nanoseconds), the default middleware chain of status translation
followed by panic recovery, and no native options. -/
theorem newServer_defaults :
    NewServer [] =
      { lis := none
        network := "tcp"
        address := ":0"
        timeout := 1000000000
        middleware := some (Chain [statusServer, recoveryRecovery])
        grpcOpts := [] } := rfl

/-! Claim C3: the timeout interceptor. -/

/-- C3: for every incoming context and configured duration, the handler
produced by `UnaryTimeoutInterceptor` invokes the next handler with a
derived context whose deadline is the intersection of `now + timeout` and
the incoming deadline (the sooner wins), leaving the other context fields
untouched; and — with the `defer cancel()` made explicit by
`timeoutInterceptorRun` — the cancel function runs on every exit path,
whatever outcome (response, error or fault) the handler produces. -/
theorem timeout_interceptor_deadline_intersection (t now : Int) (ctx : Context) (req : Val)
    (info : ServerInfo) (handler : Handler) :
    UnaryTimeoutInterceptor t now ctx req info handler
        = handler (contextWithTimeout now t ctx) req
    ∧ (contextWithTimeout now t ctx).deadline
        = some (deadlineIntersect ctx.deadline (now + t))
    ∧ (contextWithTimeout now t ctx).transport = ctx.transport
    ∧ (contextWithTimeout now t ctx).serverInfo = ctx.serverInfo
    ∧ (timeoutInterceptorRun t now handler ctx req).1
        = handler (contextWithTimeout now t ctx) req
    ∧ (timeoutInterceptorRun t now handler ctx req).2 = true :=
  ⟨rfl, contextWithTimeout_deadline now t ctx, contextWithTimeout_transport now t ctx,
    contextWithTimeout_serverInfo now t ctx, rfl, rfl⟩

/-! Claim C4: context enrichment. -/

/-- C4: `UnaryServerInterceptor` runs the middleware chain and the terminal
handler under the context augmented with the transport-kind tag "GRPC" and
the `CallInfo` built from the call's metadata (target server object and
full method name); the enrichment changes nothing else (the deadline is
untouched). -/
theorem server_interceptor_enriches_context (m : Option Middleware) (ctx : Context)
    (req : Val) (info : ServerInfo) (handler : Handler) :
    UnaryServerInterceptor m ctx req info handler
        = applyMiddleware m (fun c r => handler c r) (enrichContext ctx info) req
    ∧ (enrichContext ctx info).transport = some { kind := "GRPC" }
    ∧ (enrichContext ctx info).serverInfo
        = some { server := info.server, fullMethod := info.fullMethod }
    ∧ (enrichContext ctx info).deadline = ctx.deadline :=
  ⟨rfl, rfl, rfl, rfl⟩

/-! Claim C9: Stop. -/

/-- C9: `Stop` initiates the graceful, in-flight-draining shutdown (it
calls `GracefulStop`, which blocks until drained), logs, and returns nil;
it has no error outcome whatever the server state. -/
theorem stop_graceful_returns_nil (s : Server) :
    Stop s = { gracefulStopCalled := true
               logs := ["[gRPC] server stopping"]
               returned := none } := rfl

/-! Claim C10: nil middleware. -/

/-- C10: when the server's middleware is nil, the interceptor produced by
`UnaryServerInterceptor` skips the wrapping step and invokes the terminal
handler directly with the enriched context, returning its result
unchanged — a nil middleware never causes a fault. -/
theorem nil_middleware_calls_terminal_directly (ctx : Context) (req : Val)
    (info : ServerInfo) (handler : Handler) :
    UnaryServerInterceptor none ctx req info handler
      = handler (enrichContext ctx info) req := rfl

/-! Claim C5: options applied in order, last wins. -/

/-- C5: options are applied in the given order and a later option overrides
an earlier one for the same field: appending `Address ":0"` then
`Address ":9000"` to any option sequence yields a final configured address
of ":9000"; and in general every configuration field of the constructed
server equals the value set by the last option in the sequence touching
that field, or the default when none does. -/
theorem options_applied_in_order_last_wins (opts : List ServerOption) :
    (NewServer (opts ++ [.address ":0", .address ":9000"])).address = ":9000"
    ∧ (NewServer opts).network = lastWith networkSet opts "tcp"
    ∧ (NewServer opts).address = lastWith addressSet opts ":0"
    ∧ (NewServer opts).timeout = lastWith timeoutSet opts timeSecond
    ∧ (NewServer opts).middleware
        = lastWith middlewareSet opts (some (Chain [statusServer, recoveryRecovery]))
    ∧ (NewServer opts).grpcOpts = lastWith optionsSet opts [] := by
  have hall := newServer_fields opts
  refine ⟨?_, hall.1, hall.2.1, hall.2.2.1, hall.2.2.2.1, hall.2.2.2.2⟩
  show (List.foldl applyOption _ (opts ++ [.address ":0", .address ":9000"])).address = ":9000"
  rw [List.foldl_append]
  rfl

/-! Claim C6: bind failure leaves the server unstarted. -/

/-- C6: when binding the listening socket fails, `Start` returns that very
error immediately and the server is unchanged — no listener stored, no
listening message logged, and the accept/dispatch loop not entered. -/
theorem start_bind_failure_leaves_server_unstarted
    (netListen : String → String → Except BindError Listener) (s : Server) (e : BindError)
    (h : netListen s.network s.address = .error e) :
    Start netListen s
      = { server := s, returned := some e, logs := [], enteredServeLoop := false } := by
  simp [Start, h]

/-- A `net.Listen` collaborator that always fails with an
address-already-in-use error. -/
def failListen : String → String → Except BindError Listener :=
  fun _ _ => .error { msg := "listen tcp :0: address already in use" }

/-- C6 (witness): `Start` on the default server with a bind that fails
returns the bind error, keeps the server unchanged, logs nothing and does
not enter the serve loop. -/
theorem start_bind_failure_witness :
    Start failListen (NewServer [])
      = { server := NewServer []
          returned := some { msg := "listen tcp :0: address already in use" }
          logs := []
          enteredServeLoop := false } :=
  start_bind_failure_leaves_server_unstarted failListen (NewServer [])
    { msg := "listen tcp :0: address already in use" } rfl

/-! Claim C7: the ServerConfig invariant after construction. -/

/-- C7 (counterexample): the claimed invariant does not hold for every
option sequence — `NewServer [Timeout 0]` produces a server whose timeout
is 0, not strictly positive, because options are applied verbatim with no
validation. -/
theorem config_invariant_fails_on_zero_timeout :
    ¬ ∀ opts : List ServerOption,
        0 < (NewServer opts).timeout
        ∧ (NewServer opts).network ≠ ""
        ∧ (NewServer opts).address ≠ "" := by
  intro h
  have h0 := (h [.timeout 0]).1
  have he : (NewServer [.timeout 0]).timeout = 0 := rfl
  rw [he] at h0
  exact lt_irrefl 0 h0

/-- C7 (amended): the invariant holds after construction for every option
sequence whose options themselves respect it — every `Timeout` option
carries a strictly positive duration, and every `Network` and `Address`
option a non-empty string: then the constructed server has timeout > 0 and
non-empty network and address (the defaults satisfy all three). -/
theorem config_invariant_after_wellformed_options (opts : List ServerOption)
    (ht : ∀ t : Int, ServerOption.timeout t ∈ opts → 0 < t)
    (hn : ∀ n : String, ServerOption.network n ∈ opts → n ≠ "")
    (ha : ∀ a : String, ServerOption.address a ∈ opts → a ≠ "") :
    0 < (NewServer opts).timeout
    ∧ (NewServer opts).network ≠ ""
    ∧ (NewServer opts).address ≠ "" := by
  have hfields := newServer_fields opts
  refine ⟨?_, ?_, ?_⟩
  · rw [hfields.2.2.1]
    apply lastWith_preserves (fun x : Int => 0 < x) timeoutSet opts timeSecond
    · show (0 : Int) < 1000000000
      norm_num
    · intro o ho x hx
      cases o <;> simp [timeoutSet] at hx
      exact hx ▸ ht _ (by exact hx ▸ ho)
  · rw [hfields.1]
    apply lastWith_preserves (fun x : String => x ≠ "") networkSet opts "tcp"
    · intro hcon
      exact absurd hcon (by decide)
    · intro o ho x hx
      cases o <;> simp [networkSet] at hx
      exact hx ▸ hn _ (by exact hx ▸ ho)
  · rw [hfields.2.1]
    apply lastWith_preserves (fun x : String => x ≠ "") addressSet opts ":0"
    · intro hcon
      exact absurd hcon (by decide)
    · intro o ho x hx
      cases o <;> simp [addressSet] at hx
      exact hx ▸ ha _ (by exact hx ▸ ho)

/-- C7 (witness): a concrete well-formed option sequence — timeout five
nanoseconds, network "tcp4", address ":9000" — yields a server satisfying
the invariant. -/
theorem config_invariant_witness :
    0 < (NewServer [.timeout 5, .network "tcp4", .address ":9000"]).timeout
    ∧ (NewServer [.timeout 5, .network "tcp4", .address ":9000"]).network ≠ ""
    ∧ (NewServer [.timeout 5, .network "tcp4", .address ":9000"]).address ≠ "" :=
  config_invariant_after_wellformed_options [.timeout 5, .network "tcp4", .address ":9000"]
    (by intro t h; simp at h; omega)
    (by intro n h; simp at h; rw [h]; decide)
    (by intro a h; simp at h; rw [h]; decide)

/-! Claim C8: endpoint resolution. -/

/-- C8: when address resolution succeeds with a resolved address, `Endpoint`
returns the URI `grpc://` followed by that address, with a nil error; when
resolution fails, it returns the empty string — never a well-formed URI —
together with the non-nil resolution error. -/
theorem endpoint_resolution
    (extract : String → Option Listener → Except HostError String) (s : Server) :
    (∀ e : HostError, extract s.address s.lis = .error e →
        Endpoint extract s = ("", some e))
    ∧ (∀ addr : String, extract s.address s.lis = .ok addr →
        Endpoint extract s = ("grpc://" ++ addr, none)) := by
  constructor
  · intro e he
    simp [Endpoint, he]
  · intro addr ha
    simp [Endpoint, ha]

/-- A resolver that fails: the socket is unbound and no configured host
resolves concretely. -/
def extractFail : String → Option Listener → Except HostError String :=
  fun _ _ => .error { msg := "no host found" }

/-- A resolver that succeeds with a concrete host and port. -/
def extractOk : String → Option Listener → Except HostError String :=
  fun _ _ => .ok "192.168.1.5:9000"

/-- C8 (witness): on the default server, a failing resolver makes
`Endpoint` return the empty string with the error, and a succeeding
resolver makes it return the `grpc://`-prefixed address with nil error. -/
theorem endpoint_resolution_witness :
    Endpoint extractFail (NewServer []) = ("", some { msg := "no host found" })
    ∧ Endpoint extractOk (NewServer []) = ("grpc://192.168.1.5:9000", none) :=
  ⟨(endpoint_resolution extractFail (NewServer [])).1 { msg := "no host found" } rfl,
    (endpoint_resolution extractOk (NewServer [])).2 "192.168.1.5:9000" rfl⟩

end KratosGrpc
